import Mathlib

/-
Verification of the BigEarthNet dataset adapter
(`src/inference/datasets/bigearthnet.py`).

The development shallowly embeds the label-mapping, sample-addressing and
band-ordering logic of the `BigEarthNet` class.  External collaborators
(HTTP download, archive extraction, raster decoding, JSON parsing) are
modelled at their interfaces: the filesystem is an explicit value, the
parsed "labels" field of a label file is passed as a list of strings, and
the result of a `glob` call is passed as a list of paths.  Python dict and
string semantics (last-binding-wins lookup, `str.strip`, `str.splitlines`
restricted to the newline separator, `sorted` as a stable key sort) are
embedded explicitly.  Fallible steps (assert, file-not-found, KeyError,
IndexError) are Except/Option values.
-/

/-- The 19-class vocabulary, `BigEarthNet.class_sets[19]`. -/
def classSet19 : List String :=
  [ "Urban fabric",
    "Industrial or commercial units",
    "Arable land",
    "Permanent crops",
    "Pastures",
    "Complex cultivation patterns",
    "Land principally occupied by agriculture, with significant areas of natural vegetation",
    "Agro-forestry areas",
    "Broad-leaved forest",
    "Coniferous forest",
    "Mixed forest",
    "Natural grassland and sparsely vegetated areas",
    "Moors, heathland and sclerophyllous vegetation",
    "Transitional woodland, shrub",
    "Beaches, dunes, sands",
    "Inland wetlands",
    "Coastal wetlands",
    "Inland waters",
    "Marine waters" ]

/-- The 43-class vocabulary, `BigEarthNet.class_sets[43]`. -/
def classSet43 : List String :=
  [ "Continuous urban fabric",
    "Discontinuous urban fabric",
    "Industrial or commercial units",
    "Road and rail networks and associated land",
    "Port areas",
    "Airports",
    "Mineral extraction sites",
    "Dump sites",
    "Construction sites",
    "Green urban areas",
    "Sport and leisure facilities",
    "Non-irrigated arable land",
    "Permanently irrigated land",
    "Rice fields",
    "Vineyards",
    "Fruit trees and berry plantations",
    "Olive groves",
    "Pastures",
    "Annual crops associated with permanent crops",
    "Complex cultivation patterns",
    "Land principally occupied by agriculture, with significant areas of natural vegetation",
    "Agro-forestry areas",
    "Broad-leaved forest",
    "Coniferous forest",
    "Mixed forest",
    "Natural grassland",
    "Moors and heathland",
    "Sclerophyllous vegetation",
    "Transitional woodland/shrub",
    "Beaches, dunes, sands",
    "Bare rock",
    "Sparsely vegetated areas",
    "Burnt areas",
    "Inland marshes",
    "Peatbogs",
    "Salt marshes",
    "Salines",
    "Intertidal flats",
    "Water courses",
    "Water bodies",
    "Coastal lagoons",
    "Estuaries",
    "Sea and ocean" ]

/-- The mutable class-level vocabulary state shared by all dataset
instances (`BigEarthNet.class_sets`, a class attribute). -/
structure ClassSets where
  set19 : List String
  set43 : List String
  deriving DecidableEq

/-- The pristine class-level state before any construction. -/
def defaultClassSets : ClassSets :=
  { set19 := classSet19, set43 := classSet43 }

/-- The entries of `BigEarthNet.label_converter`, in source order. -/
def labelConverterTable : List (Nat × Nat) :=
  [ (0, 0), (1, 0), (2, 1), (11, 2), (12, 2), (13, 2), (14, 3), (15, 3),
    (16, 3), (18, 3), (17, 4), (19, 5), (20, 6), (21, 7), (22, 8), (23, 9),
    (24, 10), (25, 11), (31, 11), (26, 12), (27, 12), (28, 13), (29, 14),
    (33, 15), (34, 15), (35, 16), (36, 16), (38, 17), (39, 17), (40, 18),
    (41, 18), (42, 18) ]

/-- `BigEarthNet.label_converter.get(k)`: dict lookup returning None on a
missing key.  The table's keys are pairwise distinct, so first-match
lookup agrees with Python dict semantics. -/
def labelConverter (k : Nat) : Option Nat :=
  labelConverterTable.lookup k

/-- Python whitespace, as stripped by `str.strip()`. -/
def isPySpace (c : Char) : Bool :=
  c = ' ' || c = '\t' || c = '\n' || c = '\r' || c = Char.ofNat 11 || c = Char.ofNat 12

/-- `str.strip()`: drop leading and trailing whitespace. -/
def pyStrip (s : String) : String :=
  String.mk (((s.data.dropWhile isPySpace).reverse.dropWhile isPySpace).reverse)

/-- Python `str.split(sep)` for a one-character separator, by structural
recursion on the character list so that the kernel can evaluate it. -/
def splitCharAux (sep : Char) : List Char → List Char → List String
  | [], acc => [String.mk acc.reverse]
  | c :: cs, acc =>
    if c = sep then String.mk acc.reverse :: splitCharAux sep cs []
    else splitCharAux sep cs (c :: acc)

/-- Python `str.split(sep)` on a string, one-character separator. -/
def splitChar (sep : Char) (s : String) : List String :=
  splitCharAux sep s.data []

/-- `str.splitlines()` on a string with newline line boundaries.  Python
returns no line for the empty string, and the stripped manifest content
never carries a trailing newline, so splitting on the separator agrees
with Python on every stripped string. -/
def pySplitlines (s : String) : List String :=
  if s = "" then [] else splitChar '\n' s

/-- `os.path.join` for the relative paths the adapter builds. -/
def pathJoin (a b : String) : String :=
  a ++ "/" ++ b

/-- The filesystem as seen through `os.path.exists` and `open`:
the set of existing paths and the readable file contents. -/
structure FS where
  existing : List String
  contents : List (String × String)
  deriving DecidableEq

/-- `os.path.exists`. -/
def fsExists (fs : FS) (p : String) : Bool :=
  fs.existing.contains p

/-- `open(p).read()`, None modelling FileNotFoundError. -/
def fsRead (fs : FS) (p : String) : Option String :=
  fs.contents.lookup p

/-- `BigEarthNet.splits_metadata[split]["filename"]`. -/
def splitFilename : String → String
  | "train" => "bigearthnet-train.csv"
  | "val" => "bigearthnet-val.csv"
  | "test" => "bigearthnet-test.csv"
  | _ => ""

/-- `BigEarthNet.metadata[key]["directory"]`. -/
def dirOf : String → String
  | "s1" => "sentinel-1"
  | "s2" => "sentinel-2"
  | _ => ""

/-- `BigEarthNet.metadata[key]["filename"]`. -/
def archiveOf : String → String
  | "s1" => "BigEarthNet-S1-v1.0.tar.gz"
  | "s2" => "BigEarthNet-S2-v1.0.tar.gz"
  | _ => ""

/-- One record of `BigEarthNet.folders`: the two per-source folder paths
of one sample. -/
structure FolderPair where
  s1 : String
  s2 : String
  deriving DecidableEq

/-- The folder record built from one manifest identifier
(`BigEarthNet._load_folders`, the dict inside the comprehension). -/
def folderOf (root pid : String) : FolderPair :=
  { s1 := pathJoin (pathJoin root (dirOf "s1")) pid,
    s2 := pathJoin (pathJoin root (dirOf "s2")) pid }

/-- The exceptions construction can raise. -/
inductive InitError where
  | assertionError
  | runtimeError
  | fileNotFound
  deriving DecidableEq

/-- Equality on construction results is decidable, so concrete runs can
be checked by evaluation. -/
instance {e a : Type} [DecidableEq e] [DecidableEq a] : DecidableEq (Except e a) := fun x y =>
  match x, y with
  | .error u, .error v =>
    if h : u = v then .isTrue (by rw [h]) else .isFalse (fun hc => h (Except.error.inj hc))
  | .ok u, .ok v =>
    if h : u = v then .isTrue (by rw [h]) else .isFalse (fun hc => h (Except.ok.inj hc))
  | .error _, .ok _ => .isFalse (fun hc => Except.noConfusion hc)
  | .ok _, .error _ => .isFalse (fun hc => Except.noConfusion hc)

/-- `BigEarthNet._load_folders`: read the split manifest, strip it, split
into lines, split each line on commas, and build one folder record per
line from the first token.  `splitChar` never returns an empty list,
so `headD` is Python's `pair[0]`. -/
def loadFolders (root split : String) (fs : FS) : Except InitError (List FolderPair) :=
  match fsRead fs (pathJoin root (splitFilename split)) with
  | none => .error .fileNotFound
  | some content =>
    let lines := pySplitlines (pyStrip content)
    let pairs := lines.map (fun line => splitChar ',' line)
    .ok (pairs.map (fun pair => folderOf root (pair.headD "")))

/-- `BigEarthNet._verify`: succeed if split manifests and source
directories exist; otherwise succeed if the archives (and manifests)
exist to extract; otherwise fail unless download is enabled.  Download
and extraction are external collaborators and are modelled as succeeding. -/
def verifyBEN (root bands : String) (download : Bool) (fs : FS) : Except InitError Unit :=
  let keys := if bands = "all" then ["s1", "s2"] else [bands]
  let directories := keys.map dirOf
  let filenamesSplits := ["bigearthnet-train.csv", "bigearthnet-val.csv", "bigearthnet-test.csv"]
  let existsSplits := filenamesSplits.all (fun f => fsExists fs (pathJoin root f))
  let existsDirs := directories.all (fun d => fsExists fs (pathJoin root d))
  if existsSplits && existsDirs then .ok ()
  else
    let filenames := keys.map archiveOf ++ filenamesSplits
    if filenames.all (fun f => fsExists fs (pathJoin root f)) then .ok ()
    else if download then .ok ()
    else .error .runtimeError

/-- The association list of `{c: i for i, c in enumerate(cs)}`. -/
def class2idxList (cs : List String) : List (String × Nat) :=
  cs.enum.map (fun p => (p.2, p.1))

/-- Python dict lookup over an association list built left to right: a
later binding of a duplicated key overwrites an earlier one, so lookup
runs over the reversed list. -/
def dictGet (d : List (String × Nat)) (k : String) : Option Nat :=
  d.reverse.lookup k

/-- The constructor arguments of `BigEarthNet.__init__`. -/
structure Params where
  root : String
  split : String
  bands : String
  num_classes : Nat
  download : Bool
  checksum : Bool
  other_features : Bool
  deriving DecidableEq

/-- The per-instance state a constructed dataset holds. -/
structure Dataset where
  root : String
  split : String
  bands : String
  num_classes : Nat
  class2idx : List (String × Nat)
  folders : List FolderPair
  other_features : Bool
  deriving DecidableEq

/-- Lines 313-316 of `__init__`: the one-time catch-all append.  Returns
the new shared vocabulary state and the instance's class count. -/
def appendOther (other_features : Bool) (cs : ClassSets) (num_classes : Nat) : ClassSets × Nat :=
  if other_features && !(cs.set19.contains "Other features") then
    ({ set19 := cs.set19 ++ ["Other features"],
       set43 := cs.set43 ++ ["Other features"] },
      num_classes + 1)
  else (cs, num_classes)

/-- `BigEarthNet.__init__`: assert the configuration (split, bands,
num_classes, in source order), build the name-to-index lookup from the
current shared 43-class list, verify the data, load the folder records,
then perform the optional catch-all append.  Returns the new shared
vocabulary state together with the constructed instance. -/
def initBEN (cs : ClassSets) (p : Params) (fs : FS) : Except InitError (ClassSets × Dataset) :=
  if ["train", "val", "test"].contains p.split then
    if ["s1", "s2", "all"].contains p.bands then
      if p.num_classes == 43 || p.num_classes == 19 then
        let class2idx := class2idxList cs.set43
        match verifyBEN p.root p.bands p.download fs with
        | .error e => .error e
        | .ok _ =>
          match loadFolders p.root p.split fs with
          | .error e => .error e
          | .ok folders =>
            .ok ((appendOther p.other_features cs p.num_classes).1,
              { root := p.root, split := p.split, bands := p.bands,
                num_classes := (appendOther p.other_features cs p.num_classes).2,
                class2idx := class2idx, folders := folders,
                other_features := p.other_features })
      else .error .assertionError
    else .error .assertionError
  else .error .assertionError

/-- `BigEarthNet.__len__`. -/
def benLen (d : Dataset) : Nat :=
  d.folders.length

/-- Lines 435-438 of `_load_target`: the folder whose JSON label file is
read. -/
def targetFolder (bands : String) (f : FolderPair) : String :=
  if bands = "s2" then f.s2 else f.s1

/-- `[self.class2idx[label] for label in labels]`: None models the
KeyError a name missing from the vocabulary raises. -/
def labelsToIndices (cls : List (String × Nat)) : List String → Option (List Nat)
  | [] => some []
  | l :: ls =>
    match dictGet cls l with
    | none => none
    | some i =>
      match labelsToIndices cls ls with
      | none => none
      | some is => some (i :: is)

/-- `target = torch.zeros(n); target[indices] = 1`: None models the
IndexError an out-of-range index raises. -/
def multiHot (n : Nat) (indices : List Nat) : Option (List Nat) :=
  if indices.all (fun i => i < n) then
    some ((List.range n).map (fun i => if indices.contains i then 1 else 0))
  else none

/-- Lines 444-454 of `_load_target`, from the parsed "labels" field:
map names to 43-class indices, reduce through the converter in 19/20
class mode (dropping unmapped indices), and build the multi-hot target. -/
def loadTargetFromLabels (num_classes : Nat) (cls : List (String × Nat))
    (labels : List String) : Option (List Nat) :=
  match labelsToIndices cls labels with
  | none => none
  | some indices =>
    let indices2 :=
      if num_classes == 19 || num_classes == 20 then indices.filterMap labelConverter
      else indices
    multiHot num_classes indices2

/-- `Tensor.squeeze(1)` at the shape level: dimension 1 is removed when
it is a singleton, otherwise the shape is unchanged. -/
def squeezeDim1 (shape : List Nat) : List Nat :=
  if shape.get? 1 = some 1 then shape.eraseIdx 1 else shape

/-- Lines 332-333 of `__getitem__`: the post-transform shape fixup of
the image. -/
def getitemImageShape (shape : List Nat) : List Nat :=
  if shape.length = 4 then squeezeDim1 shape else shape

/-- Modelled from the spec: `sort_sentinel2_bands` lives in
`src/inference/datasets/utils.py`, which is not part of the sources; the
spec describes it as a band-order key derived from the band code embedded
in the filename, with B8A sorting between B08 and B09
(numeric-then-alphabetic). -/
def sortSentinel2Key (path : String) : String :=
  let base := (splitChar '/' path).getLastD path
  let tok := (splitChar '_' base).getLastD base
  let stem := if tok.endsWith ".tif" then tok.dropRight 4 else tok
  if stem = "B8A" then "B08A" else stem

/-- Python `sorted` on strings: a stable lexicographic sort. -/
def pySortedStr (l : List String) : List String :=
  l.mergeSort (fun a b => decide (a ≤ b))

/-- Python `sorted(l, key=key)`: a stable sort comparing keys. -/
def pySortedByKey (key : String → String) (l : List String) : List String :=
  l.mergeSort (fun a b => decide (key a ≤ key b))

/-- `BigEarthNet._load_paths`, parametrised by the two glob results
(`glob` is an external filesystem listing whose order the code never
relies on). -/
def loadPaths (bands : String) (pathsS1 pathsS2 : List String) : List String :=
  if bands = "all" then
    pySortedStr pathsS1 ++ pySortedByKey sortSentinel2Key pathsS2
  else if bands = "s1" then
    pySortedStr pathsS1
  else
    pySortedByKey sortSentinel2Key pathsS2

/-- Follows the claim's words, for comparison with the embedded code:
the number of non-empty lines of a manifest file's content. -/
def nonEmptyLineCount (s : String) : Nat :=
  ((splitChar '\n' s).filter (fun l => l ≠ "")).length

/- Concrete fixtures used by witnesses and counterexamples. -/

/-- A filesystem where the three split manifests and the sentinel-2
directory exist and the test manifest lists two patches. -/
def fsA : FS :=
  { existing := [ "data/bigearthnet-train.csv", "data/bigearthnet-val.csv",
      "data/bigearthnet-test.csv", "data/sentinel-2" ],
    contents := [ ("data/bigearthnet-test.csv", "patchA\npatchB") ] }

/-- Construction parameters with the catch-all class enabled. -/
def pOther : Params :=
  { root := "data", split := "test", bands := "s2", num_classes := 19,
    download := false, checksum := false, other_features := true }

/-- Construction parameters without the catch-all class. -/
def pPlain : Params :=
  { pOther with other_features := false }

/-- A later construction: 43 classes, catch-all disabled. -/
def pSecond : Params :=
  { pOther with num_classes := 43, other_features := false }

/-- A filesystem whose test manifest has an interior blank line. -/
def fsBlank : FS :=
  { existing := fsA.existing,
    contents := [ ("data/bigearthnet-test.csv", "a\n\nb") ] }

/-- The vocabulary state the append step produces: both lists extended
by the catch-all entry. -/
def extendOther (cs : ClassSets) : ClassSets :=
  { set19 := cs.set19 ++ ["Other features"],
    set43 := cs.set43 ++ ["Other features"] }

/-- The instance the blank-line manifest produces. -/
def dBlank : Dataset :=
  { root := "data", split := "test", bands := "s2", num_classes := 19,
    class2idx := class2idxList classSet43,
    folders := [folderOf "data" "a", folderOf "data" "", folderOf "data" "b"],
    other_features := false }

/-- The shared state after the first catch-all construction. -/
def csExt : ClassSets :=
  extendOther defaultClassSets

/-- The first instance, constructed with the catch-all enabled. -/
def dFirst : Dataset :=
  { root := "data", split := "test", bands := "s2", num_classes := 20,
    class2idx := class2idxList classSet43,
    folders := [folderOf "data" "patchA", folderOf "data" "patchB"],
    other_features := true }

/-- A later 43-class instance, catch-all disabled, built on the
extended shared state. -/
def dSecond : Dataset :=
  { root := "data", split := "test", bands := "s2", num_classes := 43,
    class2idx := class2idxList csExt.set43,
    folders := [folderOf "data" "patchA", folderOf "data" "patchB"],
    other_features := false }

/- C1 -/

/-- C1 counterexample: with bands "all" the label file is looked up in
the source-A (s1) folder, not in the s2 folder the claim names. -/
theorem targetFolder_combined_cex :
    targetFolder "all" (folderOf "data" "p") = (folderOf "data" "p").s1 ∧
    targetFolder "all" (folderOf "data" "p") ≠ (folderOf "data" "p").s2 := by
  decide

/-- C1 (amended): the label-loading step reads from source-B's (s2)
folder exactly when bands is "s2", and from source-A's (s1) folder for
every other bands value, combined mode "all" included. -/
theorem targetFolder_selection (f : FolderPair) (bands : String) (h : bands ≠ "s2") :
    targetFolder bands f = f.s1 ∧ targetFolder "s2" f = f.s2 := by
  unfold targetFolder
  rw [if_neg h, if_pos rfl]
  exact ⟨rfl, rfl⟩

/-- C1 witness: the amended selection rule at bands "all". -/
theorem targetFolder_selection_witness :
    targetFolder "all" (folderOf "data" "p") = (folderOf "data" "p").s1 ∧
    targetFolder "s2" (folderOf "data" "p") = (folderOf "data" "p").s2 :=
  targetFolder_selection (folderOf "data" "p") "all" (by decide)

/- C4 -/

/-- C4 counterexample: a transformed image of shape (1, 3, 224, 224)
has a leading singleton dimension, yet the facade returns it unchanged
and 4-dimensional: the squeeze targets dimension 1, which is 3 here. -/
theorem getitemShape_leadingSingleton_cex :
    getitemImageShape [1, 3, 224, 224] = [1, 3, 224, 224] ∧
    ([1, 3, 224, 224] : List Nat).length ≠ 3 := by
  decide

/-- C4 (amended): on a 4-dimensional transformed image the facade
squeezes dimension 1 (the second dimension), not the leading one: a
shape (c, 1, h, w) becomes (c, h, w), while a shape (1, c, h, w) with
c different from 1 is returned unchanged, still 4-dimensional. -/
theorem getitemShape_squeezesDim1 (c h w : Nat) (hc : c ≠ 1) :
    getitemImageShape [c, 1, h, w] = [c, h, w] ∧
    getitemImageShape [1, c, h, w] = [1, c, h, w] := by
  constructor
  · simp [getitemImageShape, squeezeDim1, List.eraseIdx]
  · simp [getitemImageShape, squeezeDim1, List.get?, hc]

/-- C4 witness: the amended squeeze behaviour at shapes
(3, 1, 224, 224) and (1, 3, 224, 224). -/
theorem getitemShape_squeezesDim1_witness :
    getitemImageShape [3, 1, 224, 224] = [3, 224, 224] ∧
    getitemImageShape [1, 3, 224, 224] = [1, 3, 224, 224] :=
  getitemShape_squeezesDim1 3 224 224 (by decide)

/- C5 -/

/-- C5 (confirmed): a label file whose labels list is exactly
["Pastures"] yields, with 43 classes, the 43-length multi-hot vector
with exactly index 17 set, and with 19 classes the 19-length vector
with exactly index 4 set. -/
theorem pastures_roundtrip :
    loadTargetFromLabels 43 (class2idxList classSet43) ["Pastures"] =
      some ((List.range 43).map (fun i => if i = 17 then 1 else 0)) ∧
    loadTargetFromLabels 19 (class2idxList classSet43) ["Pastures"] =
      some ((List.range 19).map (fun i => if i = 4 then 1 else 0)) := by
  decide

/- C7 -/

/-- C7 (confirmed): combined-mode band resolution is exactly the
source-A resolution followed by the source-B resolution, with no
interleaving; each per-source resolution is a permutation of its glob
result, so nothing is omitted. -/
theorem loadPaths_combined (g1 g2 : List String) :
    loadPaths "all" g1 g2 = loadPaths "s1" g1 g2 ++ loadPaths "s2" g1 g2 ∧
    (loadPaths "s1" g1 g2).Perm g1 ∧
    (loadPaths "s2" g1 g2).Perm g2 := by
  refine ⟨rfl, ?_, ?_⟩
  · simp only [loadPaths, pySortedStr]
    norm_num
    exact List.mergeSort_perm g1 _
  · simp only [loadPaths, pySortedByKey]
    norm_num
    exact List.mergeSort_perm g2 _

/- C9 -/

/-- C9 (confirmed): an illegal split, bands, or num_classes value makes
construction fail with the assertion error, and the result is the same
for every filesystem: the failure happens before any filesystem access. -/
theorem initBEN_assert_before_io (cs : ClassSets) (p : Params)
    (h : ["train", "val", "test"].contains p.split = false ∨
         ["s1", "s2", "all"].contains p.bands = false ∨
         (p.num_classes == 43 || p.num_classes == 19) = false) :
    ∀ fs : FS, initBEN cs p fs = .error .assertionError := by
  intro fs
  unfold initBEN
  rcases h with h | h | h <;> simp at h <;> simp [h]

/-- C9 witness: bands "x" is rejected identically on two different
filesystems. -/
theorem initBEN_assert_before_io_witness :
    initBEN defaultClassSets { pOther with bands := "x" } fsA = .error .assertionError ∧
    initBEN defaultClassSets { pOther with bands := "x" } fsBlank = .error .assertionError :=
  ⟨initBEN_assert_before_io defaultClassSets _ (by decide) fsA,
   initBEN_assert_before_io defaultClassSets _ (by decide) fsBlank⟩

/- Shared lemmas about the label converter and label loading. -/

/-- Every binding the converter returns comes from the table. -/
lemma labelConverter_mem {k v : Nat} (h : labelConverter k = some v) :
    (k, v) ∈ labelConverterTable := by
  obtain ⟨l1, l2, he, -⟩ := List.lookup_eq_some_iff.mp h
  rw [he]
  exact List.mem_append_right _ (List.mem_cons_self _ _)

/-- Converter keys are at most 42 and values at most 18. -/
lemma labelConverter_bounds {k v : Nat} (h : labelConverter k = some v) :
    k ≤ 42 ∧ v ≤ 18 := by
  have hall : ∀ p ∈ labelConverterTable, p.1 ≤ 42 ∧ p.2 ≤ 18 := by decide
  exact hall _ (labelConverter_mem h)

/-- A name lookup failure anywhere in the list makes index extraction
fail. -/
lemma labelsToIndices_eq_none {cls : List (String × Nat)} :
    ∀ {labels : List String}, (∃ l, l ∈ labels ∧ dictGet cls l = none) →
      labelsToIndices cls labels = none := by
  intro labels
  induction labels with
  | nil => rintro ⟨l, hl, -⟩; cases hl
  | cons a ls ih =>
    rintro ⟨l, hl, hn⟩
    rcases List.mem_cons.mp hl with rfl | hmem
    · simp [labelsToIndices, hn]
    · cases hda : dictGet cls a with
      | none => simp [labelsToIndices, hda]
      | some i => simp [labelsToIndices, hda, ih ⟨l, hmem, hn⟩]

/-- When every name resolves, index extraction succeeds. -/
lemma labelsToIndices_isSome {cls : List (String × Nat)} :
    ∀ {labels : List String}, (∀ l ∈ labels, (dictGet cls l).isSome = true) →
      ∃ is, labelsToIndices cls labels = some is := by
  intro labels
  induction labels with
  | nil => exact fun _ => ⟨[], rfl⟩
  | cons a ls ih =>
    intro h
    have ha := h a (List.mem_cons_self _ _)
    cases hda : dictGet cls a with
    | none => rw [hda] at ha; cases ha
    | some i =>
      obtain ⟨is, his⟩ := ih (fun l hl => h l (List.mem_cons_of_mem _ hl))
      exact ⟨i :: is, by simp [labelsToIndices, hda, his]⟩

/-- Everything the converter lets through fits a 19-slot vector. -/
lemma filterMap_labelConverter_lt (is : List Nat) :
    ∀ j ∈ is.filterMap labelConverter, j < 19 := by
  intro j hj
  obtain ⟨a, -, ha⟩ := List.mem_filterMap.mp hj
  have := (labelConverter_bounds ha).2
  omega

/-- The vector a successful multi-hot build returns. -/
lemma multiHot_eq_some {n : Nat} {indices v : List Nat} (h : multiHot n indices = some v) :
    v = (List.range n).map (fun i => if indices.contains i then 1 else 0) := by
  unfold multiHot at h
  split at h
  · exact (Option.some.inj h).symm
  · exact Option.noConfusion h

/- C6 -/

/-- C6 (confirmed): every converter key is in [0,42] and every value in
[0,18]; consequently a 19-class-mode reduction only produces indices at
most 18, and every position holding 1 in a 19-class-mode target vector
is at most 18. -/
theorem labelConverter_range :
    (∀ k v, labelConverter k = some v → k ≤ 42 ∧ v ≤ 18) ∧
    (∀ (is : List Nat) j, j ∈ is.filterMap labelConverter → j ≤ 18) ∧
    (∀ (cls : List (String × Nat)) (labels : List String) (v : List Nat) (i : Nat),
      loadTargetFromLabels 19 cls labels = some v → v[i]? = some 1 → i ≤ 18) := by
  refine ⟨fun k v h => labelConverter_bounds h, ?_, ?_⟩
  · intro is j hj
    have := filterMap_labelConverter_lt is j hj
    omega
  · intro cls labels v i hload hget
    unfold loadTargetFromLabels at hload
    cases hli : labelsToIndices cls labels with
    | none => rw [hli] at hload; exact Option.noConfusion hload
    | some is =>
      rw [hli] at hload
      have hv := multiHot_eq_some hload
      have hlen : v.length = 19 := by rw [hv]; simp
      by_contra hgt
      rw [List.getElem?_eq_none (by omega)] at hget
      exact Option.noConfusion hget

/-- C6 witness: key 17 maps to 4 within bounds; the filterMap bound at
the singleton [17]; and position 4 of the 19-class Pastures target. -/
theorem labelConverter_range_witness :
    (17 ≤ 42 ∧ 4 ≤ 18) ∧ (4 : Nat) ≤ 18 ∧ (4 : Nat) ≤ 18 :=
  ⟨labelConverter_range.1 17 4 (by decide),
   labelConverter_range.2.1 [17] 4 (by decide),
   labelConverter_range.2.2 (class2idxList classSet43) ["Pastures"]
     [0, 0, 0, 0, 1, 0, 0, 0, 0, 0, 0, 0, 0, 0, 0, 0, 0, 0, 0] 4
     (by decide) (by decide)⟩

/- C8 -/

/-- C8 (confirmed): a label name missing from the 43-class vocabulary
makes label loading fail (the lookup error propagates); a 43-class index
missing from the converter in 19-class mode is silently dropped, and
loading succeeds whenever every name resolves. -/
theorem loadTarget_lookupError_vs_converterMiss
    (cls : List (String × Nat)) (nc : Nat) :
    (∀ labels, (∃ l, l ∈ labels ∧ dictGet cls l = none) →
        loadTargetFromLabels nc cls labels = none) ∧
    (∀ (l : String) (i : Nat) (rest : List String),
        dictGet cls l = some i → labelConverter i = none →
        loadTargetFromLabels 19 cls (l :: rest) = loadTargetFromLabels 19 cls rest) ∧
    (∀ labels, (∀ l ∈ labels, (dictGet cls l).isSome = true) →
        (loadTargetFromLabels 19 cls labels).isSome = true) := by
  refine ⟨?_, ?_, ?_⟩
  · intro labels hex
    rw [loadTargetFromLabels, labelsToIndices_eq_none hex]
  · intro l i rest hdi hconv
    cases hrest : labelsToIndices cls rest with
    | none => simp [loadTargetFromLabels, labelsToIndices, hdi, hrest]
    | some is =>
      simp [loadTargetFromLabels, labelsToIndices, hdi, hrest,
        List.filterMap_cons, hconv]
  · intro labels hall
    obtain ⟨is, his⟩ := labelsToIndices_isSome hall
    rw [loadTargetFromLabels, his]
    simp only [multiHot]
    rw [if_pos]
    · rfl
    · rw [List.all_eq_true]
      intro j hj
      simpa using filterMap_labelConverter_lt _ j (by simpa using hj)

/-- C8 witness: an unknown name fails; the unmapped 43-class name
"Bare rock" (index 30) is dropped, making its singleton list load like
the empty list; and loading it succeeds. -/
theorem loadTarget_lookupError_vs_converterMiss_witness :
    loadTargetFromLabels 19 (class2idxList classSet43) ["Nonsense"] = none ∧
    loadTargetFromLabels 19 (class2idxList classSet43) ["Bare rock"] =
      loadTargetFromLabels 19 (class2idxList classSet43) [] ∧
    (loadTargetFromLabels 19 (class2idxList classSet43) ["Bare rock"]).isSome = true := by
  refine ⟨?_, ?_, ?_⟩
  · exact (loadTarget_lookupError_vs_converterMiss (class2idxList classSet43) 19).1
      ["Nonsense"] ⟨"Nonsense", by decide, by decide⟩
  · exact (loadTarget_lookupError_vs_converterMiss (class2idxList classSet43) 19).2.1
      "Bare rock" 30 [] (by decide) (by decide)
  · exact (loadTarget_lookupError_vs_converterMiss (class2idxList classSet43) 19).2.2
      ["Bare rock"] (by decide)

/- Shared lemmas about construction. -/

/-- What a successful construction determines: the folder records come
from the manifest, the name-to-index lookup snapshots the pre-append
43-class list, and the returned shared state and class count are those
of the append step. -/
lemma initBEN_ok_inv {cs : ClassSets} {p : Params} {fs : FS} {cs2 : ClassSets} {d : Dataset}
    (h : initBEN cs p fs = .ok (cs2, d)) :
    loadFolders p.root p.split fs = .ok d.folders ∧
    d.class2idx = class2idxList cs.set43 ∧
    cs2 = (appendOther p.other_features cs p.num_classes).1 ∧
    d.num_classes = (appendOther p.other_features cs p.num_classes).2 := by
  unfold initBEN at h
  repeat' split at h
  all_goals simp_all
  obtain ⟨-, h2⟩ := h
  subst h2
  simp

/-- The appended name is found at index `l.length` by the lookup built
from the extended list. -/
lemma dictGet_append_last (l : List String) (x : String) :
    dictGet (class2idxList (l ++ [x])) x = some l.length := by
  unfold dictGet class2idxList
  rw [List.enum_append]
  simp [List.enumFrom, List.reverse_append, List.lookup_cons]

/- C2 -/

/-- C2 counterexample: constructing twice with other_features true from
the pristine state leaves exactly one appended entry, and the first
instance counts 20 classes, but the second instance's class count stays
at 19 — an increment of 0, not the claimed 1. -/
theorem appendOther_secondInstance_cex :
    ((initBEN defaultClassSets pOther fsA).toOption.bind (fun r =>
      (initBEN r.1 pOther fsA).toOption.map (fun r2 =>
        (r.2.num_classes, r2.2.num_classes, r2.1.set19.count "Other features"))))
      = some (20, 19, 1) ∧ (19 : Nat) ≠ pOther.num_classes + 1 :=
  ⟨by decide, by decide⟩

/-- C2 (amended): performing the append twice on the same vocabulary
leaves exactly one appended entry; the construction that performs the
append increments its class count by exactly 1, but a construction
running after the entry is already present keeps its own class count
unchanged — an increment of 0. -/
theorem appendOther_twice (cs : ClassSets) (n m : Nat)
    (h : cs.set19.count "Other features" = 0) :
    (appendOther true cs n).1.set19.count "Other features" = 1 ∧
    (appendOther true cs n).2 = n + 1 ∧
    (appendOther true (appendOther true cs n).1 m).1 = (appendOther true cs n).1 ∧
    (appendOther true (appendOther true cs n).1 m).2 = m := by
  have hmem : "Other features" ∉ cs.set19 := List.count_eq_zero.mp h
  have hnot : cs.set19.contains "Other features" = false := by simpa using hmem
  have h1 : appendOther true cs n = (extendOther cs, n + 1) := by
    unfold appendOther
    rw [hnot]
    rfl
  have hcont : (extendOther cs).set19.contains "Other features" = true := by
    simp [extendOther]
  have h2 : ∀ k, appendOther true (extendOther cs) k = (extendOther cs, k) := by
    intro k
    unfold appendOther
    rw [hcont]
    rfl
  refine ⟨?_, ?_, ?_, ?_⟩
  · rw [h1]
    simp [extendOther, List.count_append, h]
  · rw [h1]
  · rw [h1]
    show (appendOther true (extendOther cs) m).1 = extendOther cs
    rw [h2]
  · rw [h1]
    show (appendOther true (extendOther cs) m).2 = m
    rw [h2]

/-- C2 witness: the amended append behaviour from the pristine
vocabulary with 19 passed classes. -/
theorem appendOther_twice_witness :
    (appendOther true defaultClassSets 19).1.set19.count "Other features" = 1 ∧
    (appendOther true defaultClassSets 19).2 = 19 + 1 ∧
    (appendOther true (appendOther true defaultClassSets 19).1 19).1 =
      (appendOther true defaultClassSets 19).1 ∧
    (appendOther true (appendOther true defaultClassSets 19).1 19).2 = 19 :=
  appendOther_twice defaultClassSets 19 19 (by decide)

/- C3 -/

/-- C3 counterexample: the manifest content "a\n\nb" has two non-empty
lines, yet the constructed dataset has length 3: the interior blank
line becomes a sample with an empty identifier. -/
theorem benLen_blankLine_cex :
    ((initBEN defaultClassSets pPlain fsBlank).toOption.map (fun r => benLen r.2))
      = some 3 ∧ nonEmptyLineCount "a\n\nb" = 2 ∧ (3 : Nat) ≠ 2 :=
  ⟨by decide, by decide, by decide⟩

/-- C3 (amended): the dataset length equals the number of lines of the
manifest content after stripping leading and trailing whitespace —
interior blank lines included — and line i's first comma-separated
token determines the folder record at dataset index i. -/
theorem benLen_manifest_lines (cs : ClassSets) (p : Params) (fs : FS) (content : String)
    (cs2 : ClassSets) (d : Dataset)
    (hread : fsRead fs (pathJoin p.root (splitFilename p.split)) = some content)
    (hinit : initBEN cs p fs = .ok (cs2, d)) :
    benLen d = (pySplitlines (pyStrip content)).length ∧
    ∀ i : Nat, d.folders[i]? =
      ((pySplitlines (pyStrip content))[i]?).map
        (fun line => folderOf p.root ((splitChar ',' line).headD "")) := by
  obtain ⟨hLF, -, -, -⟩ := initBEN_ok_inv hinit
  unfold loadFolders at hLF
  rw [hread] at hLF
  simp only [Except.ok.injEq] at hLF
  constructor
  · rw [benLen, ← hLF]
    simp
  · intro i
    rw [← hLF]
    simp only [List.map_map, List.getElem?_map]
    cases (pySplitlines (pyStrip content))[i]? <;> rfl

/-- C3 witness: the amended length and indexing at the blank-line
manifest. -/
theorem benLen_manifest_lines_witness :
    benLen dBlank = (pySplitlines (pyStrip "a\n\nb")).length ∧
    ∀ i : Nat, dBlank.folders[i]? =
      ((pySplitlines (pyStrip "a\n\nb"))[i]?).map
        (fun line => folderOf "data" ((splitChar ',' line).headD "")) :=
  benLen_manifest_lines defaultClassSets pPlain fsBlank "a\n\nb" defaultClassSets dBlank
    (by decide) (by decide)

/- C10 -/

/-- C10 (confirmed): constructing with other_features true mutates the
shared class-level vocabularies in place — both lists gain "Other
features" — and every instance constructed afterwards, whatever its own
parameters, builds its name-to-index lookup from the extended 43-class
list and finds "Other features" at index 43. -/
theorem otherFeatures_mutates_shared_state (cs : ClassSets) (p1 p2 : Params)
    (fs1 fs2 : FS) (cs1 : ClassSets) (d1 : Dataset)
    (hlen : cs.set43.length = 43)
    (h19 : cs.set19.contains "Other features" = false)
    (ho : p1.other_features = true)
    (h1 : initBEN cs p1 fs1 = .ok (cs1, d1)) :
    cs1.set19 = cs.set19 ++ ["Other features"] ∧
    cs1.set43 = cs.set43 ++ ["Other features"] ∧
    ∀ (cs2 : ClassSets) (d2 : Dataset), initBEN cs1 p2 fs2 = .ok (cs2, d2) →
      dictGet d2.class2idx "Other features" = some 43 := by
  obtain ⟨-, -, hcs1, -⟩ := initBEN_ok_inv h1
  have happ : cs1 = extendOther cs := by
    rw [hcs1, ho]
    unfold appendOther
    rw [h19]
    rfl
  refine ⟨by rw [happ]; rfl, by rw [happ]; rfl, ?_⟩
  intro cs2 d2 h2
  obtain ⟨-, hidx, -, -⟩ := initBEN_ok_inv h2
  rw [hidx, happ]
  unfold extendOther
  have := dictGet_append_last cs.set43 "Other features"
  rw [hlen] at this
  exact this

/-- C10 witness: the concrete two-construction run. -/
theorem otherFeatures_mutates_shared_state_witness :
    csExt.set19 = classSet19 ++ ["Other features"] ∧
    csExt.set43 = classSet43 ++ ["Other features"] ∧
    dictGet dSecond.class2idx "Other features" = some 43 := by
  have h := otherFeatures_mutates_shared_state defaultClassSets pOther pSecond fsA fsA
    csExt dFirst (by decide) (by decide) rfl (by decide)
  exact ⟨h.1, h.2.1, h.2.2 csExt dSecond (by decide)⟩
